import Mathlib

/-!
Verification development for the HOA document-analysis script (src/main.py).

The script is a thin orchestration layer over a hosted assistants API.  The
definitions below shallowly embed the functions that exist in src/main.py
(configuration constants, the document loader, the word-document reader, the
streaming event handler state, vector-store retrieval, assistant verification)
and, where the running code of the design exists only in the specification
(the question battery driver, the retry policy, rank resolution, the report
writer, corpus ingestion), definitions modelled from the spec, each marked as
such in its doc comment.
-/

/-- Kinds of Python exceptions relevant to the script.  A value of this type
stands for the exception object raised at runtime. -/
inductive PyErr where
  | attributeError
  | importError
  | valueError
  | osError
  | systemExit (code : Nat)
  deriving Repr, DecidableEq

/-- src/main.py line 19: MAX_RETRIES = 3. -/
def MAX_RETRIES : Nat := 3

/-- src/main.py line 20: RETRY_DELAY = 5. -/
def RETRY_DELAY : Nat := 5

/-- src/main.py line 17: VECTOR_STORE_NAME = "HOA DOCUMENT". -/
def VECTOR_STORE_NAME : String := "HOA DOCUMENT"

/-- src/main.py lines 23-40: the authority ranking table, category label to
priority rank (lower = higher priority). -/
def AUTHORITY_RANKING : List (String × Nat) :=
  [("CC&R Amendments", 1),
   ("CC&Rs", 2),
   ("Bylaws", 3),
   ("Articles of Incorporation", 4),
   ("Operating Rules", 5),
   ("Election Rules", 6),
   ("Annual Budget Report", 7),
   ("Financial Statements", 8),
   ("Reserve Study", 9),
   ("Reserve Fund", 10),
   ("Fine Schedule", 11),
   ("Assessment Enforcement", 12),
   ("Meeting Minutes", 13),
   ("Additional Operational Policies & Guidelines", 14),
   ("Insurance & Evidence of Insurance (COI)", 15),
   ("Flood & General Liability Insurance", 16)]

/-- src/main.py lines 42-63: the fixed battery of extraction questions. -/
def EXTRACTION_QUESTIONS : List String :=
  ["What is the official name of the homeowners association as indicated in the documents? (If multiple sources mention the name, use the information from the highest-ranked document.)",
   "What details are provided about the monthly dues (amounts, payment schedule, and any related conditions)? (Prioritize details from the highest-ranking file available, and note if the dues are aggregate or per property.)",
   "What information is available regarding fee increases and special assessments, including any criteria, frequency, or conditions under which they occur? (Reference the highest-priority document if multiple files address these topics.)",
   "How is the overall financial health of the HOA described, including any metrics, ratings, or commentary on fiscal stability? (Use details from the document highest in the ranking order when available.)",
   "What details are offered about the reserve fund (such as its balance, purpose, and allocation policies)? (If several documents provide this information, select details from the top-ranked source.)",
   "How is the HOA budget allocated among various expense categories, and what insights or breakdowns are provided? (Use the highest-authority source available.)",
   "What does the documentation reveal about the reputation of the management team (including performance, responsiveness, or community feedback)? (Reference the highest-priority document when multiple documents mention management reputation.)",
   "What issues or complaints have been documented, and what information is provided on how they were handled or resolved? (If details come from various sources, follow the ranking order to determine the authoritative source.)",
   "What specific rules and restrictions govern the community, and how are these policies structured or enforced? (Use the highest-ranked document addressing rules and restrictions.)",
   "What policies are in place regarding pets (e.g., permitted types, restrictions, approval processes, or limits)? (If multiple documents include pet policies, prioritize according to the given ranking order.)",
   "What information is provided about short-term rental policies, including any limitations or guidelines? (Refer to the highest-authority document if several files discuss this topic.)",
   "What details are included regarding capital improvements (such as planned projects, recent upgrades, or funding for improvements)? (Prioritize information from the document highest in the provided list.)",
   "How are the community amenities and overall property condition described in the documents? (Use the details from the top-ranked document available on amenities and conditions.)",
   "What information is available on the HOA’s governance practices and transparency, including decision-making processes and access to records? (If multiple documents offer insights, choose the details from the highest-authority file.)",
   "What enforcement measures and fine structures are documented for policy violations, and what are the associated procedures? (When conflicting information exists, refer to the highest-priority source such as Fine Schedule or Assessment Enforcement.)",
   "How does the HOA address routine maintenance and emergency situations, including any protocols or response plans? (Use the highest-ranked document that discusses maintenance and emergencies.)",
   "What processes are outlined for resolving disputes among residents or between residents and management? (If details are provided in several documents, prioritize using the ranking order.)",
   "What details are provided on insurance policies and service coverage, including scope, limitations, and any notable exclusions? (Use the highest-authority document among those addressing insurance, e.g., Insurance & Evidence of Insurance (COI) or Flood & General Liability Insurance.)",
   "What legal or regulatory issues have been identified, and how does the HOA address or mitigate these challenges? (Prioritize details from the highest-ranked document that discusses legal or regulatory matters.)",
   "What evidence or information is provided about resident engagement, involvement, or feedback within the community? (If multiple sources offer information on resident engagement, use the details from the highest-ranked document.)"]

/-! Character-level string helpers, used so that every definition reduces in the
kernel on concrete inputs. -/

/-- Index of the last dot in a character list, if any. -/
def lastDot (cs : List Char) : Option Nat :=
  match cs.reverse.findIdx? (fun c => c == '.') with
  | none => none
  | some j => some (cs.length - 1 - j)

/-- Python os.path.splitext restricted to a bare filename (directory-entry
names, as returned by os.listdir, contain no path separator): split at the last
dot, except that a name consisting only of leading dots before that dot keeps
no extension. -/
def splitext (s : String) : String × String :=
  let cs := s.toList
  match lastDot cs with
  | none => (s, "")
  | some i =>
    if (cs.take i).all (fun c => c == '.') then (s, "")
    else (String.mk (cs.take i), String.mk (cs.drop i))

/-- Python str.lower, character by character. -/
def lowerString (s : String) : String :=
  String.mk (s.toList.map Char.toLower)

/-- Python filename.startswith of the temporary-file marker, src/main.py
line 109: the two-character marker prefixed by word-processor temp files. -/
def hasTempMarker (s : String) : Bool :=
  s.toList.take 2 == ['~', '$']

/-- Abstraction of one directory entry of the input directory, together with
the outcome each runtime read of that entry would have: the paragraph texts the
python-docx Document call yields (or the exception it raises), the number of
pages PyPDF2 yields for it (or the exception opening or parsing it raises), and
the text that open().read() yields (or the exception it raises). -/
structure SrcFile where
  name : String
  isFile : Bool
  wordParagraphs : Except PyErr (List String)
  pdfPages : Except PyErr Nat
  textRead : Except PyErr String
  deriving Repr

/-- src/main.py line 104. -/
def allowed_extensions : List String := [".doc", ".docx", ".pdf", ".txt", ".md"]

/-- src/main.py lines 105-111: the selection predicate of the directory scan —
a regular file, not starting with the temporary marker, whose extension
lowercases into the allowed set.  The source spells the extension splitter
os.path.splittext; this predicate reads it as the evident os.path.splitext (the
literal reading is prepare_files_faithful below). -/
def isCandidate (f : SrcFile) : Bool :=
  f.isFile && !(hasTempMarker f.name) &&
    allowed_extensions.contains (lowerString (splitext f.name).2)

/-- src/main.py lines 93-100: read_word_document.  The python-docx call
Document(file_path) and the paragraph iteration are abstracted as their joint
outcome, the argument docx.  The result type Except PyErr String makes an
exception escaping to the caller representable; the except-clause of the source
catches every Exception, prints, and returns the empty string. -/
def read_word_document (docx : Except PyErr (List String)) : Except PyErr String :=
  match docx with
  | .ok ps => .ok (String.intercalate "\n" ps)
  | .error _ => .ok ""

/-- Whether the PyPDF2 dependency is importable in the running environment. -/
structure PdfEnv where
  pypdf2Installed : Bool

/-- src/main.py lines 119-137: the body of the per-file try-block.  Word
formats go through read_word_document; for PDFs, a missing PyPDF2 yields
content "" (ImportError arm), and otherwise the source calls page.extract_txt()
— a method PyPDF2 pages do not have — so with at least one page an
AttributeError is raised and caught by the inner except arm, and with zero
pages the join is over nothing: every PDF therefore yields content "".  Plain
text and markdown are read directly, and that read may raise to the caller. -/
def file_content (env : PdfEnv) (f : SrcFile) : Except PyErr String :=
  let ext := lowerString (splitext f.name).2
  if ext == ".doc" || ext == ".docx" then
    read_word_document f.wordParagraphs
  else if ext == ".pdf" then
    if !env.pypdf2Installed then Except.ok ""
    else
      match f.pdfPages with
      | .error _ => Except.ok ""
      | .ok 0 => Except.ok ""
      | .ok (_ + 1) => Except.ok ""
  else
    f.textRead

/-- src/main.py lines 102-145: prepare_files, with the misspelled
os.path.splittext of lines 110 and 120 read as the evident os.path.splitext
(the literal reading is prepare_files_faithful below).  The directory listing
is abstracted as a list of SrcFile entries.  When no entry passes the selection
predicate the script prints and calls exit(1), modelled as SystemExit 1.
Otherwise each selected file is processed inside a try-block: a raised
exception is caught, logged and the file skipped, and a file whose extracted
content is empty (Python falsy) is likewise skipped with a log line; the
surviving (path, content) pairs are returned in listing order. -/
def prepare_files (env : PdfEnv) (dir : String) (listing : List SrcFile) :
    Except PyErr (List (String × String)) :=
  let candidates := listing.filter isCandidate
  if candidates.isEmpty then Except.error (PyErr.systemExit 1)
  else Except.ok (candidates.filterMap (fun f =>
    match file_content env f with
    | .error _ => none
    | .ok c => if c == "" then none else some (dir ++ "/" ++ f.name, c)))

/-- src/main.py lines 102-115 exactly as written: the selection comprehension
evaluates os.path.splittext(filename) for the first entry that is a regular
file and does not start with the temporary marker, and the os.path module has
no attribute named splittext, so prepare_files raises AttributeError there,
outside any try-block; when no entry reaches that conjunct, file_paths is empty
and the script calls exit(1).  As written, the function can never return. -/
def prepare_files_faithful (listing : List SrcFile) :
    Except PyErr (List (String × String)) :=
  if listing.any (fun f => f.isFile && !(hasTempMarker f.name)) then
    Except.error PyErr.attributeError
  else
    Except.error (PyErr.systemExit 1)

/-! The streaming event handler of src/main.py lines 67-86. -/

/-- src/main.py lines 68-70: the mutable state of the EventHandler — the
accumulated response text and the set of cited source-document filenames.  The
Python set is modelled as a duplicate-free list in insertion order. -/
structure EventHandlerState where
  response_content : String
  source_document : List String
  deriving Repr, DecidableEq

/-- src/main.py lines 76-78: on_text_created appends the text value plus a
newline to the accumulated response. -/
def on_text_created (st : EventHandlerState) (textValue : String) : EventHandlerState :=
  { st with response_content := st.response_content ++ textValue ++ "\n" }

/-- src/main.py lines 80-86: on_file_citation_created resolves the cited file
id to its filename (abstracted as the outcome retrieved) and adds the filename
to the citation set; a retrieval failure is caught, logged and ignored. -/
def on_file_citation_created (st : EventHandlerState) (retrieved : Except PyErr String) :
    EventHandlerState :=
  match retrieved with
  | .ok fname =>
    { st with source_document :=
        if st.source_document.contains fname then st.source_document
        else st.source_document ++ [fname] }
  | .error _ => st

/-! Authority-rank resolution.  The spec (sections 3, 4.2, 4.4 and 9) makes
rank bookkeeping explicit; src/main.py only serializes AUTHORITY_RANKING into
the prompt text, so the resolution functions below are modelled from the
spec. -/

/-- Spec data model (section 3): a loaded document with its filename and its
authority category label. -/
structure DocumentRec where
  filename : String
  authority_category : String
  deriving Repr, DecidableEq

/-- The largest rank configured in AUTHORITY_RANKING (16). -/
def maxConfiguredRank : Nat :=
  (AUTHORITY_RANKING.map Prod.snd).foldr max 0

/-- Modelled from the spec: the Authority Classifier rank lookup (section 4.2)
is absent from src/main.py; a category present in AUTHORITY_RANKING maps to its
configured rank, and an unknown category fails open to lowest priority,
maxConfiguredRank + 1. -/
def authority_rank (category : String) : Nat :=
  match AUTHORITY_RANKING.lookup category with
  | some r => r
  | none => maxConfiguredRank + 1

/-- Modelled from the spec: resolve one cited filename to the authority rank of
its Document in the corpus (sections 3 and 4.4 step 3); a citation whose
document is unknown falls open to lowest priority. -/
def docRank (corpus : List DocumentRec) (fname : String) : Nat :=
  match corpus.find? (fun d => d.filename == fname) with
  | some d => authority_rank d.authority_category
  | none => maxConfiguredRank + 1

/-- Modelled from the spec: resolved_authority_rank (section 3 invariant,
section 9) — the minimum authority rank among the Documents referenced by the
citations, none (unranked) when the citation set is empty.  This bookkeeping is
absent from src/main.py, which delegates ranking to the prompt text. -/
def resolved_authority_rank (corpus : List DocumentRec) (citations : List String) :
    Option Nat :=
  match citations.map (docRank corpus) with
  | [] => none
  | r :: rs => some (rs.foldl min r)

/-! The answer orchestrator.  src/main.py defines the battery and the retry
constants but contains no driver loop; the orchestration below is modelled from
the spec (section 4.4). -/

/-- Terminal per-question states of the spec state machine (section 4.4). -/
inductive QStatus where
  | SUCCEEDED
  | FAILED
  deriving Repr, DecidableEq

/-- Spec data model (section 3): the structured answer record. -/
structure Answer where
  question_id : Nat
  response_text : String
  citations : List String
  status : QStatus
  deriving Repr, DecidableEq

/-- A transient backend failure (network or backend error). -/
inductive BackendErr where
  | transient
  deriving Repr, DecidableEq

/-- Modelled from the spec (section 4.4 step 5): the bounded retry loop, absent
from src/main.py, which only defines MAX_RETRIES and RETRY_DELAY.  The backend
call is abstracted as a function of the attempt index; the loop issues the call
up to budget times, sleeping RETRY_DELAY seconds before each retry, and returns
the first success together with the list of delays slept. -/
def attemptLoop (call : Nat → Except BackendErr (String × List String)) :
    Nat → Nat → Option (String × List String) × List Nat
  | _, 0 => (none, [])
  | first, b + 1 =>
    match call first with
    | .ok r => (some r, [])
    | .error _ =>
      if b == 0 then (none, [])
      else
        let rest := attemptLoop call (first + 1) b
        (rest.1, RETRY_DELAY :: rest.2)

/-- Modelled from the spec (section 4.4 step 5): one Answer per question; on
success the response text and citations of the successful call, on retry
exhaustion the record with empty response text, empty citations and status
FAILED.  The backend is a function of attempt index and question id. -/
def answerQuestion (backend : Nat → Nat → Except BackendErr (String × List String))
    (qid : Nat) : Answer :=
  match (attemptLoop (fun k => backend k qid) 0 MAX_RETRIES).1 with
  | some r => ⟨qid, r.1, r.2, QStatus.SUCCEEDED⟩
  | none => ⟨qid, "", [], QStatus.FAILED⟩

/-- Modelled from the spec (section 4.4 step 6): the full battery runs exactly
once per invocation, in fixed order, one answer per question regardless of
outcomes. -/
def runBattery (backend : Nat → Nat → Except BackendErr (String × List String)) :
    List Answer :=
  (List.range EXTRACTION_QUESTIONS.length).map (fun i => answerQuestion backend i)

/-! The report writer, modelled from the spec (section 4.5): absent from
src/main.py. -/

/-- Insert a (rank, filename) pair into a list sorted by ascending rank. -/
def insertByRank (x : Nat × String) : List (Nat × String) → List (Nat × String)
  | [] => [x]
  | y :: ys => if x.1 ≤ y.1 then x :: y :: ys else y :: insertByRank x ys

/-- Insertion sort of (rank, filename) pairs by ascending rank. -/
def sortPairs (l : List (Nat × String)) : List (Nat × String) :=
  l.foldr insertByRank []

/-- Modelled from the spec (section 4.5): the cited document filenames of an
answer, ordered by ascending authority rank. -/
def sortCitations (corpus : List DocumentRec) (citations : List String) : List String :=
  (sortPairs (citations.map (fun f => (docRank corpus f, f)))).map Prod.snd

/-- The explicit failure marker the report renders for a FAILED answer
(spec sections 4.5 and 7). -/
def failureMarker : String := "NO ANSWER (failed after retry exhaustion)"

/-- One rendered report entry: question text, answer text or failure marker,
cited filenames by ascending rank. -/
structure ReportEntry where
  question : String
  body : String
  cited : List String
  deriving Repr, DecidableEq

/-- Modelled from the spec (section 4.5): render one answer. -/
def renderAnswer (corpus : List DocumentRec) (a : Answer) : ReportEntry :=
  { question := EXTRACTION_QUESTIONS.getD a.question_id ""
    body := if a.status == QStatus.FAILED then failureMarker else a.response_text
    cited := sortCitations corpus a.citations }

/-- Modelled from the spec (section 4.5): the report enumerates the given
answers in order, one entry each. -/
def writeReport (corpus : List DocumentRec) (answers : List Answer) : List ReportEntry :=
  answers.map (renderAnswer corpus)

/-- The chain predicate: the ranks of the pairs ascend, starting at lower
bound b. -/
def chainAsc (b : Nat) : List (Nat × String) → Bool
  | [] => true
  | y :: ys => if b ≤ y.1 then chainAsc y.1 ys else false

/-- The pairs are sorted by ascending rank. -/
def sortedByRank : List (Nat × String) → Bool
  | [] => true
  | y :: ys => chainAsc y.1 ys

/-! The vector store and the assistant, src/main.py lines 147-216. -/

/-- A backend vector store object, as far as the script inspects it. -/
structure VectorStore where
  id : String
  name : String
  deriving Repr, DecidableEq

/-- src/main.py lines 199-216: create_or_retrieve_vector_store scans the
existing stores in listing order and returns the first one named
VECTOR_STORE_NAME; when none matches it raises ValueError, catches it, and
creates a fresh store with that name, abstracted as the argument fresh.  (The
print on line 211 is missing a comma before the exception value — a syntax slip
affecting only the log line, read here as intended.) -/
def create_or_retrieve_vector_store (existing : List VectorStore) (fresh : VectorStore) :
    VectorStore :=
  match existing.find? (fun vs => vs.name == VECTOR_STORE_NAME) with
  | some vs => vs
  | none => fresh

/-- Spec data model: a document held by the corpus backend. -/
structure CorpusDoc where
  filename : String
  raw_text : String
  deriving Repr, DecidableEq

/-- The update applied by ingest to a stored document. -/
def updDoc (fname t : String) (d : CorpusDoc) : CorpusDoc :=
  if d.filename == fname then { d with raw_text := t } else d

/-- Modelled from the spec (section 4.3): ingest(filename, raw_text),
idempotent by name — no upload or ingestion code exists in src/main.py.  A
document already stored under the filename is updated in place; otherwise the
document is appended. -/
def ingest (corpus : List CorpusDoc) (fname t : String) : List CorpusDoc :=
  if corpus.any (fun d => d.filename == fname) then
    corpus.map (updDoc fname t)
  else
    corpus ++ [⟨fname, t⟩]

/-- The file-search tool resources of an assistant. -/
structure FileSearchResources where
  vector_store_ids : List String
  deriving Repr, DecidableEq

/-- The tool resources of an assistant. -/
structure ToolResources where
  file_search : Option FileSearchResources
  deriving Repr, DecidableEq

/-- A backend assistant object, as far as the script inspects it.  A missing
tool_resources attribute and a None value both collapse to none. -/
structure Assistant where
  id : String
  tool_resources : Option ToolResources
  deriving Repr, DecidableEq

/-- src/main.py lines 186-197: verify_assistant_setup returns true exactly when
the assistant carries tool resources whose file-search vector-store ids contain
the expected id; any missing link on the way yields false. -/
def verify_assistant_setup (assistant : Assistant) (vector_store_id : String) : Bool :=
  match assistant.tool_resources with
  | none => false
  | some tr =>
    match tr.file_search with
    | none => false
    | some fs => fs.vector_store_ids.contains vector_store_id

/-- Fatal run-level errors of the spec error model (section 7). -/
inductive RunError where
  | backendConfigurationError
  deriving Repr, DecidableEq

/-- Modelled from the spec (sections 6 and 7): the run driver — absent from
src/main.py, which has no main function — verifies the assistant binding
before any querying and fails fast with BackendConfigurationError when the
verification fails; the battery is only invoked after a successful check. -/
def runGuard (assistant : Assistant) (vector_store_id : String)
    (battery : Unit → List Answer) : Except RunError (List Answer) :=
  if verify_assistant_setup assistant vector_store_id then Except.ok (battery ())
  else Except.error RunError.backendConfigurationError

/-! Helper lemmas about the left fold of min, used for rank resolution. -/

theorem foldl_min_le (rs : List Nat) :
    ∀ r : Nat, rs.foldl min r ≤ r ∧ ∀ x ∈ rs, rs.foldl min r ≤ x := by
  induction rs with
  | nil =>
    intro r
    exact ⟨le_refl r, by intro x hx; cases hx⟩
  | cons a rs ih =>
    intro r
    have h := ih (min r a)
    refine ⟨le_trans h.1 (Nat.min_le_left r a), ?_⟩
    intro x hx
    rcases List.mem_cons.mp hx with rfl | hx
    · exact le_trans h.1 (Nat.min_le_right r x)
    · exact h.2 x hx

theorem foldl_min_mem (rs : List Nat) :
    ∀ r : Nat, rs.foldl min r = r ∨ rs.foldl min r ∈ rs := by
  induction rs with
  | nil => intro r; exact Or.inl rfl
  | cons a rs ih =>
    intro r
    have hstep : (a :: rs).foldl min r = rs.foldl min (min r a) := rfl
    rcases ih (min r a) with h | h
    · rcases Nat.le_total r a with hra | har
      · left
        rw [hstep, h, Nat.min_eq_left hra]
      · right
        rw [hstep, h, Nat.min_eq_right har]
        exact List.mem_cons_self a rs
    · right
      rw [hstep]
      exact List.mem_cons_of_mem a h

/-- A two-document demonstration corpus with the categories of the C8 scenario
of the spec (section 8). -/
def demoCorpus : List DocumentRec :=
  [⟨"ccrs.docx", "CC&Rs"⟩, ⟨"minutes.docx", "Meeting Minutes"⟩]

/-- Claim C2: for every Answer with at least one citation, its resolved
authority rank is exactly the minimum authority rank among the Documents
referenced by its citations — it is some value attained by a cited document and
a lower bound of all cited ranks — and with an empty citation set the rank is
undefined (none, unranked). -/
theorem C2_resolved_rank_is_min (corpus : List DocumentRec) (citations : List String)
    (h : citations ≠ []) :
    resolved_authority_rank corpus [] = none ∧
    ∃ m, resolved_authority_rank corpus citations = some m ∧
      (∀ f ∈ citations, m ≤ docRank corpus f) ∧
      (∃ f ∈ citations, docRank corpus f = m) := by
  refine ⟨rfl, ?_⟩
  cases citations with
  | nil => exact absurd rfl h
  | cons f fs =>
    refine ⟨(fs.map (docRank corpus)).foldl min (docRank corpus f), rfl, ?_, ?_⟩
    · intro g hg
      rcases List.mem_cons.mp hg with rfl | hg
      · exact (foldl_min_le _ _).1
      · exact (foldl_min_le _ _).2 _ (List.mem_map_of_mem _ hg)
    · rcases foldl_min_mem (fs.map (docRank corpus)) (docRank corpus f) with h1 | h1
      · exact ⟨f, List.mem_cons_self f fs, h1.symm⟩
      · rcases List.mem_map.mp h1 with ⟨g, hg, hgm⟩
        exact ⟨g, List.mem_cons_of_mem f hg, hgm⟩

/-- Witness for C2 at a concrete corpus and citation set. -/
theorem C2_resolved_rank_is_min_witness :
    resolved_authority_rank demoCorpus [] = none ∧
    ∃ m, resolved_authority_rank demoCorpus ["ccrs.docx", "minutes.docx"] = some m ∧
      (∀ f ∈ ["ccrs.docx", "minutes.docx"], m ≤ docRank demoCorpus f) ∧
      (∃ f ∈ ["ccrs.docx", "minutes.docx"], docRank demoCorpus f = m) :=
  C2_resolved_rank_is_min demoCorpus ["ccrs.docx", "minutes.docx"]
    (List.cons_ne_nil _ _)

/-- Claim C10: the word-document reader is total — for every outcome of the
underlying docx extraction it returns ok (never an error, so no exception
reaches its caller), and the value returned is the paragraph texts joined by
newlines on success and the empty string on any extraction failure. -/
theorem C10_read_word_document_total (docx : Except PyErr (List String)) :
    (∃ s, read_word_document docx = Except.ok s) ∧
    ((∃ ps, docx = Except.ok ps ∧
        read_word_document docx = Except.ok (String.intercalate "\n" ps)) ∨
     (∃ e, docx = Except.error e ∧ read_word_document docx = Except.ok "")) := by
  cases docx with
  | ok ps => exact ⟨⟨_, rfl⟩, Or.inl ⟨ps, rfl, rfl⟩⟩
  | error e => exact ⟨⟨"", rfl⟩, Or.inr ⟨e, rfl, rfl⟩⟩

/-- Claim C9: whenever the assistant is not actually attached to the expected
vector store — whatever the shape of its tool resources — the verification
returns false and the guarded run fails fast with the configuration error, for
every battery continuation, so no question answering takes place. -/
theorem C9_fail_fast_unbound (a : Assistant) (vsid : String)
    (bat : Unit → List Answer)
    (h : ∀ tr fs, a.tool_resources = some tr → tr.file_search = some fs →
        vsid ∉ fs.vector_store_ids) :
    verify_assistant_setup a vsid = false ∧
    runGuard a vsid bat = Except.error RunError.backendConfigurationError := by
  have hv : verify_assistant_setup a vsid = false := by
    unfold verify_assistant_setup
    cases htr : a.tool_resources with
    | none => rfl
    | some tr =>
      show (match tr.file_search with
            | none => false
            | some fs => fs.vector_store_ids.contains vsid) = false
      cases hfs : tr.file_search with
      | none => rfl
      | some fs =>
        have hnm := h tr fs htr hfs
        simpa using hnm
  refine ⟨hv, ?_⟩
  unfold runGuard
  rw [hv]
  rfl

/-- Witness for C9: an assistant carrying no tool resources at all. -/
theorem C9_fail_fast_unbound_witness :
    verify_assistant_setup ⟨"asst", none⟩ "vs1" = false ∧
    runGuard ⟨"asst", none⟩ "vs1" (fun _ => []) =
      Except.error RunError.backendConfigurationError :=
  C9_fail_fast_unbound ⟨"asst", none⟩ "vs1" (fun _ => [])
    (fun _ _ htr _ => Option.noConfusion htr)

/-- The failing input of claim C5: a directory whose listing holds the single
regular plain-text file a.txt. -/
def plainTxtFile : SrcFile :=
  ⟨"a.txt", true, Except.ok [], Except.ok 0, Except.ok "hello"⟩

/-- Claim C5, evaluation at the failing input: on a listing holding one regular
supported file, prepare_files as written does not select the file — evaluating
the selection comprehension raises AttributeError, because os.path has no
attribute splittext (src/main.py line 110). -/
theorem C5_selection_crashes :
    prepare_files_faithful [plainTxtFile] = Except.error PyErr.attributeError := rfl

/-- The corrupted-text-file entry of the failing input of claim C4. -/
def badTxtFile : SrcFile :=
  ⟨"bad.txt", true, Except.ok [], Except.ok 0, Except.error PyErr.osError⟩

/-- The readable-text-file entry of the failing input of claim C4. -/
def goodTxtFile : SrcFile :=
  ⟨"good.txt", true, Except.ok [], Except.ok 0, Except.ok "good content"⟩

/-- Claim C4, evaluation at the failing input: on a listing holding a corrupted
file alongside a readable one, prepare_files as written loads neither and skips
nothing — it raises AttributeError at the selection comprehension (src/main.py
line 110), outside every per-file try-block, before any file is read. -/
theorem C4_batch_crashes :
    prepare_files_faithful [badTxtFile, goodTxtFile] =
      Except.error PyErr.attributeError := rfl

/-- The counterexample input of claim C3: one candidate file whose extraction
yields no content. -/
def emptyTxtFile : SrcFile :=
  ⟨"a.txt", true, Except.ok [], Except.ok 0, Except.ok ""⟩

/-- Counterexample to claim C3: a directory holding one supported regular file
whose extraction yields the empty string — so zero files produce extractable
content — on which the loader (with the misspelled splitext read as intended;
the literal reading never returns at all, see C5) returns ok with the empty
document list and raises no fatal error whatsoever. -/
theorem C3_no_error_on_empty_content :
    prepare_files ⟨true⟩ "input" [emptyTxtFile] = Except.ok [] := rfl

/-- Claim C3 as amended: the fatal exit happens exactly when the directory
holds zero candidate files (regular, not marked temporary, supported
extension); the check precedes extraction, so it is the candidate count, not
the extractable-content count, that is fatal when zero. -/
theorem C3_amended_no_candidates_fatal (env : PdfEnv) (dir : String)
    (listing : List SrcFile)
    (h : (listing.filter isCandidate).isEmpty = true) :
    prepare_files env dir listing = Except.error (PyErr.systemExit 1) := by
  unfold prepare_files
  simp only [h, if_true]

/-- Witness for the amended C3 at the empty directory. -/
theorem C3_amended_no_candidates_fatal_witness :
    prepare_files ⟨true⟩ "input" [] = Except.error (PyErr.systemExit 1) :=
  C3_amended_no_candidates_fatal ⟨true⟩ "input" [] rfl

/-! Sortedness of the citation listing. -/

theorem insertByRank_chain (x : Nat × String) :
    ∀ (l : List (Nat × String)) (b : Nat), chainAsc b l = true → b ≤ x.1 →
      chainAsc b (insertByRank x l) = true := by
  intro l
  induction l with
  | nil =>
    intro b _ hbx
    show chainAsc b [x] = true
    simp [chainAsc, hbx]
  | cons y ys ih =>
    intro b hch hbx
    have hby : b ≤ y.1 := by
      by_contra hc
      simp [chainAsc, hc] at hch
    have hch' : chainAsc y.1 ys = true := by
      simpa [chainAsc, hby] using hch
    by_cases hxy : x.1 ≤ y.1
    · show chainAsc b (if x.1 ≤ y.1 then x :: y :: ys else y :: insertByRank x ys) = true
      rw [if_pos hxy]
      show (if b ≤ x.1 then chainAsc x.1 (y :: ys) else false) = true
      rw [if_pos hbx]
      show (if x.1 ≤ y.1 then chainAsc y.1 ys else false) = true
      rw [if_pos hxy]
      exact hch'
    · have hyx : y.1 ≤ x.1 := le_of_not_le hxy
      show chainAsc b (if x.1 ≤ y.1 then x :: y :: ys else y :: insertByRank x ys) = true
      rw [if_neg hxy]
      show (if b ≤ y.1 then chainAsc y.1 (insertByRank x ys) else false) = true
      rw [if_pos hby]
      exact ih y.1 hch' hyx

theorem sortPairs_sorted : ∀ l : List (Nat × String), sortedByRank (sortPairs l) = true := by
  intro l
  induction l with
  | nil => rfl
  | cons a l ih =>
    show sortedByRank (insertByRank a (sortPairs l)) = true
    cases hsp : sortPairs l with
    | nil => rfl
    | cons y ys =>
      rw [hsp] at ih
      have ih' : chainAsc y.1 ys = true := ih
      by_cases hay : a.1 ≤ y.1
      · show sortedByRank (if a.1 ≤ y.1 then a :: y :: ys else y :: insertByRank a ys) = true
        rw [if_pos hay]
        show (if a.1 ≤ y.1 then chainAsc y.1 ys else false) = true
        rw [if_pos hay]
        exact ih'
      · have hya : y.1 ≤ a.1 := le_of_not_le hay
        show sortedByRank (if a.1 ≤ y.1 then a :: y :: ys else y :: insertByRank a ys) = true
        rw [if_neg hay]
        show chainAsc y.1 (insertByRank a ys) = true
        exact insertByRank_chain a ys y.1 ih' hya

/-- Claim C8: the rank-annotated citation pairs the report writer builds are
always in ascending rank order, and in the concrete scenario of the spec — a
CC&Rs document (rank 2, per AUTHORITY_RANKING) and a Meeting Minutes document
(rank 13) both cited for a dues question — the rendered report entry lists the
CC&Rs filename before the Meeting Minutes filename, whatever order the backend
reported the citations in. -/
theorem C8_report_citations_sorted :
    (∀ (corpus : List DocumentRec) (citations : List String),
        sortedByRank (sortPairs (citations.map (fun f => (docRank corpus f, f)))) = true) ∧
    authority_rank "CC&Rs" = 2 ∧
    authority_rank "Meeting Minutes" = 13 ∧
    (renderAnswer demoCorpus
        ⟨1, "The monthly dues are stated in the governing documents.",
         ["minutes.docx", "ccrs.docx"], QStatus.SUCCEEDED⟩).cited =
      ["ccrs.docx", "minutes.docx"] := by
  exact ⟨fun corpus citations => sortPairs_sorted _, rfl, rfl, rfl⟩

/-! The battery always yields one answer per question, C1. -/

theorem answerQuestion_qid
    (backend : Nat → Nat → Except BackendErr (String × List String)) (i : Nat) :
    (answerQuestion backend i).question_id = i := by
  unfold answerQuestion
  cases (attemptLoop (fun k => backend k i) 0 MAX_RETRIES).1 <;> rfl

/-- Default answer record, used only as the default of list indexing. -/
def answer0 : Answer := ⟨0, "", [], QStatus.FAILED⟩

/-- Default report entry, used only as the default of list indexing. -/
def entry0 : ReportEntry := ⟨"", "", []⟩

/-- Claim C1: every run of the orchestrator yields exactly one answer per
question of the fixed battery of 20, in battery order (the i-th answer carries
question id i), whatever the backend does; the report enumerates exactly those
20 entries, the i-th showing the i-th question text; and a FAILED answer is
rendered with the explicit failure marker, never silently omitted. -/
theorem C1_battery_and_report
    (backend : Nat → Nat → Except BackendErr (String × List String))
    (corpus : List DocumentRec) :
    (runBattery backend).length = EXTRACTION_QUESTIONS.length ∧
    EXTRACTION_QUESTIONS.length = 20 ∧
    (∀ i, i < 20 → ((runBattery backend).getD i answer0).question_id = i) ∧
    (writeReport corpus (runBattery backend)).length = 20 ∧
    (∀ i, i < 20 → ((writeReport corpus (runBattery backend)).getD i entry0).question =
        EXTRACTION_QUESTIONS.getD i "") ∧
    (∀ a : Answer, a.status = QStatus.FAILED →
        (renderAnswer corpus a).body = failureMarker) := by
  have h20 : EXTRACTION_QUESTIONS.length = 20 := rfl
  have hlen : (runBattery backend).length = EXTRACTION_QUESTIONS.length := by
    simp [runBattery]
  refine ⟨hlen, h20, ?_, ?_, ?_, ?_⟩
  · intro i hi
    have hi' : i < (runBattery backend).length := by rw [hlen, h20]; exact hi
    rw [List.getD_eq_getElem _ _ hi']
    simp [runBattery, answerQuestion_qid]
  · simp [writeReport, hlen, h20]
  · intro i hi
    have hi' : i < (writeReport corpus (runBattery backend)).length := by
      simp [writeReport, hlen, h20]
      exact hi
    rw [List.getD_eq_getElem _ _ hi']
    simp [writeReport, runBattery, renderAnswer, answerQuestion_qid]
  · intro a ha
    simp [renderAnswer, ha, failureMarker]

/-- A backend on which every call fails with a transient error. -/
def badBackend : Nat → Nat → Except BackendErr (String × List String) :=
  fun _ _ => Except.error BackendErr.transient

/-- Witness for C1, at the all-failing backend and the empty corpus. -/
theorem C1_battery_and_report_witness :
    (runBattery badBackend).length = 20 ∧
    (renderAnswer [] ⟨0, "", [], QStatus.FAILED⟩).body = failureMarker := by
  have h := C1_battery_and_report badBackend []
  exact ⟨h.1.trans h.2.1, h.2.2.2.2.2 ⟨0, "", [], QStatus.FAILED⟩ rfl⟩

/-! The retry policy, C7. -/

theorem attemptLoop_step (c : Nat → Except BackendErr (String × List String))
    (first b : Nat) :
    attemptLoop c first (b + 2) =
      (match c first with
       | Except.ok r => (some r, ([] : List Nat))
       | Except.error _ =>
         ((attemptLoop c (first + 1) (b + 1)).1,
          RETRY_DELAY :: (attemptLoop c (first + 1) (b + 1)).2)) := rfl

theorem attemptLoop_last (c : Nat → Except BackendErr (String × List String))
    (first : Nat) :
    attemptLoop c first 1 =
      (match c first with
       | Except.ok r => (some r, ([] : List Nat))
       | Except.error _ => (none, [])) := rfl

/-- Claim C7: with the retry budget MAX_RETRIES = 3 and the delay
RETRY_DELAY = 5 of src/main.py, a backend call that fails on the first two
attempts and succeeds on the third yields a SUCCEEDED answer carrying the
successful response, with a 5-second delay slept between consecutive attempts;
a backend whose calls fail on all attempts yields the answer with empty
response text, empty citations and status FAILED; and the battery still
produces its full complement of 20 answers around such a failing question. -/
theorem C7_retry_policy
    (bk bk2 : Nat → Nat → Except BackendErr (String × List String))
    (q : Nat) (r : String × List String)
    (h0 : bk 0 q = Except.error BackendErr.transient)
    (h1 : bk 1 q = Except.error BackendErr.transient)
    (h2 : bk 2 q = Except.ok r)
    (hb : ∀ k, k < MAX_RETRIES → bk2 k q = Except.error BackendErr.transient) :
    MAX_RETRIES = 3 ∧ RETRY_DELAY = 5 ∧
    answerQuestion bk q = ⟨q, r.1, r.2, QStatus.SUCCEEDED⟩ ∧
    (attemptLoop (fun k => bk k q) 0 MAX_RETRIES).2 = [RETRY_DELAY, RETRY_DELAY] ∧
    answerQuestion bk2 q = ⟨q, "", [], QStatus.FAILED⟩ ∧
    (runBattery bk2).length = 20 := by
  have e0 := hb 0 (by decide)
  have e1 := hb 1 (by decide)
  have e2 := hb 2 (by decide)
  have hC : attemptLoop (fun k => bk k q) 2 1 = (some r, []) := by
    rw [attemptLoop_last, h2]
  have hB : attemptLoop (fun k => bk k q) 1 2 = (some r, [RETRY_DELAY]) := by
    rw [show (2 : Nat) = 0 + 2 from rfl, attemptLoop_step, h1]
    rw [show (0 : Nat) + 1 + 1 = 2 from rfl, show (0 : Nat) + 1 = 1 from rfl, hC]
  have hA : attemptLoop (fun k => bk k q) 0 MAX_RETRIES =
      (some r, [RETRY_DELAY, RETRY_DELAY]) := by
    rw [show MAX_RETRIES = 1 + 2 from rfl, attemptLoop_step, h0]
    rw [show (0 : Nat) + 1 = 1 from rfl, show (1 : Nat) + 1 = 2 from rfl, hB]
  have hC2 : attemptLoop (fun k => bk2 k q) 2 1 = (none, []) := by
    rw [attemptLoop_last, e2]
  have hB2 : attemptLoop (fun k => bk2 k q) 1 2 = (none, [RETRY_DELAY]) := by
    rw [show (2 : Nat) = 0 + 2 from rfl, attemptLoop_step, e1]
    rw [show (0 : Nat) + 1 + 1 = 2 from rfl, show (0 : Nat) + 1 = 1 from rfl, hC2]
  have hA2 : attemptLoop (fun k => bk2 k q) 0 MAX_RETRIES =
      (none, [RETRY_DELAY, RETRY_DELAY]) := by
    rw [show MAX_RETRIES = 1 + 2 from rfl, attemptLoop_step, e0]
    rw [show (0 : Nat) + 1 = 1 from rfl, show (1 : Nat) + 1 = 2 from rfl, hB2]
  refine ⟨rfl, rfl, ?_, ?_, ?_, ?_⟩
  · unfold answerQuestion
    rw [hA]
  · rw [hA]
  · unfold answerQuestion
    rw [hA2]
  · rfl

/-- A backend that fails on the first two attempts and succeeds from the third
attempt on, for every question. -/
def flakyBackend : Nat → Nat → Except BackendErr (String × List String) :=
  fun k _ =>
    if k < 2 then Except.error BackendErr.transient
    else Except.ok ("The monthly dues are stated in the CC&Rs.", ["ccrs.docx"])

/-- Witness for C7 at the fail-twice-then-succeed backend and the all-failing
backend. -/
theorem C7_retry_policy_witness :
    answerQuestion flakyBackend 0 =
      ⟨0, "The monthly dues are stated in the CC&Rs.", ["ccrs.docx"],
       QStatus.SUCCEEDED⟩ ∧
    answerQuestion badBackend 0 = ⟨0, "", [], QStatus.FAILED⟩ := by
  have h := C7_retry_policy flakyBackend badBackend 0
      ("The monthly dues are stated in the CC&Rs.", ["ccrs.docx"])
      rfl rfl rfl (fun k _ => rfl)
  exact ⟨h.2.2.1, h.2.2.2.2.1⟩

/-! Idempotent ingestion and vector-store reuse, C6. -/

theorem updDoc_filename (fname t : String) (d : CorpusDoc) :
    (updDoc fname t d).filename = d.filename := by
  unfold updDoc
  split <;> rfl

theorem ingest_any (corpus : List CorpusDoc) (fname t : String) :
    (ingest corpus fname t).any (fun d => d.filename == fname) = true := by
  unfold ingest
  by_cases h : corpus.any (fun d => d.filename == fname)
  · rw [if_pos h, List.any_map]
    have hcomp : ((fun d : CorpusDoc => d.filename == fname) ∘ updDoc fname t) =
        (fun d : CorpusDoc => d.filename == fname) := by
      funext d
      simp [Function.comp, updDoc_filename]
    rw [hcomp]
    exact h
  · rw [if_neg h, List.any_append]
    simp

theorem ingest_text (corpus : List CorpusDoc) (fname t : String) :
    ∀ d ∈ ingest corpus fname t, (d.filename == fname) = true → d.raw_text = t := by
  intro d hd hdf
  unfold ingest at hd
  by_cases h : corpus.any (fun d => d.filename == fname)
  · rw [if_pos h] at hd
    rcases List.mem_map.mp hd with ⟨d0, _, rfl⟩
    unfold updDoc at hdf ⊢
    by_cases h0 : (d0.filename == fname) = true
    · rw [if_pos h0]
    · rw [if_neg h0] at hdf
      exact absurd hdf h0
  · rw [if_neg h] at hd
    have hfalse : corpus.any (fun d => d.filename == fname) = false :=
      Bool.eq_false_iff.mpr h
    rcases List.mem_append.mp hd with hd | hd
    · exact absurd hdf (List.any_eq_false.mp hfalse d hd)
    · rw [List.mem_singleton.mp hd]

theorem map_id_of_forall {α : Type} (g : α → α) :
    ∀ l : List α, (∀ x ∈ l, g x = x) → l.map g = l := by
  intro l
  induction l with
  | nil => intro _; rfl
  | cons a l ih =>
    intro h
    have ha := h a (List.mem_cons_self a l)
    have hl := ih (fun x hx => h x (List.mem_cons_of_mem a hx))
    simp [ha, hl]

theorem ingest_idem (corpus : List CorpusDoc) (fname t : String) :
    ingest (ingest corpus fname t) fname t = ingest corpus fname t := by
  have hany := ingest_any corpus fname t
  have hunf : ingest (ingest corpus fname t) fname t =
      if (ingest corpus fname t).any (fun d => d.filename == fname) then
        (ingest corpus fname t).map (updDoc fname t)
      else (ingest corpus fname t) ++ [⟨fname, t⟩] := rfl
  rw [hunf, if_pos hany]
  apply map_id_of_forall
  intro d hd
  by_cases h0 : (d.filename == fname) = true
  · have ht := ingest_text corpus fname t d hd h0
    unfold updDoc
    rw [if_pos h0]
    cases d with
    | mk fn rt =>
      simp only at ht
      rw [ht]
  · unfold updDoc
    rw [if_neg h0]

theorem filter_length_map_upd (fname t : String) (corpus : List CorpusDoc) :
    ((corpus.map (updDoc fname t)).filter (fun d => d.filename == fname)).length =
    (corpus.filter (fun d => d.filename == fname)).length := by
  induction corpus with
  | nil => rfl
  | cons a l ih =>
    simp only [List.map_cons, List.filter_cons, updDoc_filename]
    by_cases h : (a.filename == fname) = true
    · simp [h, ih]
    · simp [h, ih]

theorem ingest_unique (corpus : List CorpusDoc) (fname t : String)
    (hle : (corpus.filter (fun d => d.filename == fname)).length ≤ 1) :
    ((ingest corpus fname t).filter (fun d => d.filename == fname)).length = 1 := by
  unfold ingest
  by_cases h : corpus.any (fun d => d.filename == fname)
  · rw [if_pos h, filter_length_map_upd]
    rcases List.any_eq_true.mp h with ⟨d, hd, hp⟩
    have hmem : d ∈ corpus.filter (fun d => d.filename == fname) :=
      List.mem_filter.mpr ⟨hd, hp⟩
    have hpos : 0 < (corpus.filter (fun d => d.filename == fname)).length :=
      List.length_pos.mpr (List.ne_nil_of_mem hmem)
    omega
  · have hfalse : corpus.any (fun d => d.filename == fname) = false :=
      Bool.eq_false_iff.mpr h
    rw [if_neg h, List.filter_append]
    have h1 : corpus.filter (fun d => d.filename == fname) = [] :=
      List.filter_eq_nil_iff.mpr (List.any_eq_false.mp hfalse)
    simp [h1]

/-- Claim C6: ingestion into the corpus is idempotent by name — ingesting the
same filename and content twice equals ingesting it once, and afterwards
exactly one stored document carries that filename (no duplicates, provided the
corpus was duplicate-free for that name to begin with) — and when a store named
VECTOR_STORE_NAME already exists, create_or_retrieve_vector_store returns one
of the existing stores rather than the freshly created one. -/
theorem C6_ingest_idempotent_store_reused
    (corpus : List CorpusDoc) (fname t : String)
    (existing : List VectorStore) (fresh vs0 : VectorStore)
    (hle : (corpus.filter (fun d => d.filename == fname)).length ≤ 1)
    (hvs : vs0 ∈ existing) (hname : vs0.name = VECTOR_STORE_NAME) :
    ingest (ingest corpus fname t) fname t = ingest corpus fname t ∧
    ((ingest corpus fname t).filter (fun d => d.filename == fname)).length = 1 ∧
    create_or_retrieve_vector_store existing fresh ∈ existing := by
  refine ⟨ingest_idem corpus fname t, ingest_unique corpus fname t hle, ?_⟩
  unfold create_or_retrieve_vector_store
  cases hf : existing.find? (fun vs => vs.name == VECTOR_STORE_NAME) with
  | none =>
    exfalso
    apply List.find?_eq_none.mp hf vs0 hvs
    simp [hname]
  | some vs => exact List.mem_of_find?_eq_some hf

/-- Witness for C6 at an initially empty corpus and a one-store account. -/
theorem C6_ingest_idempotent_store_reused_witness :
    ingest (ingest [] "ccrs.docx" "dues text") "ccrs.docx" "dues text" =
      ingest [] "ccrs.docx" "dues text" ∧
    ((ingest ([] : List CorpusDoc) "ccrs.docx" "dues text").filter
        (fun d => d.filename == "ccrs.docx")).length = 1 ∧
    create_or_retrieve_vector_store [⟨"vs1", "HOA DOCUMENT"⟩] ⟨"vs2", "HOA DOCUMENT"⟩ ∈
      [(⟨"vs1", "HOA DOCUMENT"⟩ : VectorStore)] :=
  C6_ingest_idempotent_store_reused [] "ccrs.docx" "dues text"
    [⟨"vs1", "HOA DOCUMENT"⟩] ⟨"vs2", "HOA DOCUMENT"⟩ ⟨"vs1", "HOA DOCUMENT"⟩
    (Nat.zero_le 1) (List.mem_singleton.mpr rfl) rfl

